import Mathlib

/-!
Verification of `compounding-calc.py` (compound-interest calculator).

Shallow embedding notes:
* Python floats are modelled as exact rationals (ℚ); the properties under
  study are algebraic identities of the formula, not rounding behaviour.
* Python integer parameters (`compounds_per_year`, `years`) are modelled as
  `ℕ` inside the core (all uses of the core have them non-negative) and as
  `ℤ` in the validation layer, which must reject non-positive values.
* A Python `ZeroDivisionError` is modelled with `Except String`: every
  division whose divisor can be zero is guarded, and the guard failing
  produces `Except.error`, mirroring the raised exception.
* The local variables of `calculate_compound_growth` (lines 47-59 of the
  source) are lifted to top-level definitions with the source's names so
  theorems can speak about them.
-/

/-- Source line 47: `periodic_rate = r / n`. -/
def periodic_rate (r : ℚ) (n : ℕ) : ℚ := r / (n : ℚ)

/-- Source line 50:
`principal_future_value = P * (1 + periodic_rate) ** total_periods`
with `total_periods = n * t` (line 48). -/
def principal_future_value (P r : ℚ) (n t : ℕ) : ℚ :=
  P * (1 + periodic_rate r n) ^ (n * t)

/-- Source line 54: `effective_annual_rate = (1 + periodic_rate) ** n - 1`. -/
def effective_annual_rate (r : ℚ) (n : ℕ) : ℚ :=
  (1 + periodic_rate r n) ^ n - 1

/-- The value the contribution branch (source lines 52-59) computes when it
does not raise: `0` unless `pmt > 0 and t > 0`, otherwise the annuity
future-value formula, with the extra `(1 + effective_annual_rate)` factor
when `contribution_timing == 'start'`. -/
def cfv_val (r : ℚ) (n t : ℕ) (pmt : ℚ) (ct : String) : ℚ :=
  if 0 < pmt ∧ 0 < t then
    if ct = "start" then
      pmt * (((1 + effective_annual_rate r n) ^ t - 1) / effective_annual_rate r n)
        * (1 + effective_annual_rate r n)
    else
      pmt * (((1 + effective_annual_rate r n) ^ t - 1) / effective_annual_rate r n)
  else 0

/-- Source lines 52-59: the contribution future value, as fallible code.
When `pmt > 0 and t > 0` the source divides by `effective_annual_rate`
with no special case, so `effective_annual_rate = 0` raises
`ZeroDivisionError` in Python; that path is `Except.error` here. -/
def contribution_future_value (r : ℚ) (n t : ℕ) (pmt : ℚ) (ct : String) :
    Except String ℚ :=
  if 0 < pmt ∧ 0 < t then
    if effective_annual_rate r n = 0 then
      Except.error "ZeroDivisionError: float division by zero"
    else Except.ok (cfv_val r n t pmt ct)
  else Except.ok 0

/-- Source lines 31-67: `calculate_compound_growth(P, r, n, t, pmt, inflation,
contribution_timing)`. Returns the pair
`(nominal_balance, inflation_adjusted_balance)`, or an error where the
Python code raises `ZeroDivisionError` (the `r / n` on line 47 when
`n = 0`, or the `effective_annual_rate` division on lines 57/59). -/
def calculate_compound_growth (P r : ℚ) (n t : ℕ) (pmt : ℚ) (inflation : ℚ)
    (contribution_timing : String) : Except String (ℚ × ℚ) :=
  if n = 0 then Except.error "ZeroDivisionError: float division by zero"
  else
    match contribution_future_value r n t pmt contribution_timing with
    | Except.error e => Except.error e
    | Except.ok cfv =>
      let nominal_balance := principal_future_value P r n t + cfv
      let inflation_adjusted_balance :=
        if 0 < inflation ∧ 0 < t then
          nominal_balance / (1 + inflation) ^ t
        else nominal_balance
      Except.ok (nominal_balance, inflation_adjusted_balance)

/-- Source lines 6-28: `validate_input` collects the list of violation
messages (the `errors` list); the function returns `True` exactly when
this list is empty. -/
def validate_input (principal rate : ℚ) (compounds_per_year years : ℤ)
    (contributions inflation : ℚ) : List String :=
  (if principal < 0 then ["Principal cannot be negative"] else []) ++
  (if rate < 0 then ["Interest rate cannot be negative"] else []) ++
  (if compounds_per_year ≤ 0 then ["Compounds per year must be greater than 0"] else []) ++
  (if years ≤ 0 then ["Years must be greater than 0"] else []) ++
  (if contributions < 0 then ["Annual contributions cannot be negative"] else []) ++
  (if inflation < 0 ∨ 100 ≤ inflation then ["Inflation rate must be between 0 and 100%"] else [])

/-- Source lines 264-278 (the CLI branch of `main`): the percent-unit rate
and inflation flags are divided by 100 (lines 266, 270), then
`validate_input` runs on the converted values; on failure the process
exits with status 1 (modelled `none`), otherwise `display_results` calls
the core (modelled by returning the core's result on the full horizon). -/
def run_main (principal rate_pct : ℚ) (compounds years : ℤ)
    (contributions inflation_pct : ℚ) (timing : String) :
    Option (Except String (ℚ × ℚ)) :=
  let rate := rate_pct / 100
  let inflation := inflation_pct / 100
  if validate_input principal rate compounds years contributions inflation = [] then
    some (calculate_compound_growth principal rate compounds.toNat years.toNat
      contributions inflation timing)
  else none

/-- If the contribution branch is inactive, or `effective_annual_rate` is
nonzero, lines 52-59 do not raise and produce `cfv_val`. -/
lemma contribution_future_value_eq_ok (r : ℚ) (n t : ℕ) (pmt : ℚ) (ct : String)
    (h : effective_annual_rate r n ≠ 0 ∨ ¬(0 < pmt ∧ 0 < t)) :
    contribution_future_value r n t pmt ct = Except.ok (cfv_val r n t pmt ct) := by
  unfold contribution_future_value
  split_ifs with h1 h2
  · exact absurd h2 (h.resolve_right (not_not_intro h1))
  · rfl
  · unfold cfv_val
    rw [if_neg h1]

/-- Success shape of the core: with `n ≠ 0` and the contribution division
not degenerate, `calculate_compound_growth` returns the pair built from
`principal_future_value` and `cfv_val`, the second component discounted by
inflation exactly when `inflation > 0 and t > 0` (source lines 61-67). -/
lemma calculate_compound_growth_eq_ok (P r : ℚ) (n t : ℕ) (pmt inflation : ℚ)
    (ct : String) (hn : n ≠ 0)
    (h : effective_annual_rate r n ≠ 0 ∨ ¬(0 < pmt ∧ 0 < t)) :
    calculate_compound_growth P r n t pmt inflation ct =
      Except.ok (principal_future_value P r n t + cfv_val r n t pmt ct,
        if 0 < inflation ∧ 0 < t then
          (principal_future_value P r n t + cfv_val r n t pmt ct) / (1 + inflation) ^ t
        else principal_future_value P r n t + cfv_val r n t pmt ct) := by
  unfold calculate_compound_growth
  rw [if_neg hn, contribution_future_value_eq_ok r n t pmt ct h]

/-- With a zero annual rate, `effective_annual_rate` is `0` (so the
contribution branch divides by zero). -/
lemma effective_annual_rate_zero (n : ℕ) : effective_annual_rate 0 n = 0 := by
  unfold effective_annual_rate periodic_rate
  simp

/-- Claim C1: the claim (and the spec) say the core never fails on a
validated input set because `effectiveAnnualRate = 0` is special-cased;
the code has no such special case, so the validated input
principal = 1000, rate = 0, compounds = 12, years = 5, contributions = 100,
inflation = 0, timing = end reaches `0 / 0` on source line 59 and raises
`ZeroDivisionError`. -/
theorem validated_zero_rate_contribution_divides_by_zero :
    calculate_compound_growth 1000 0 12 5 100 0 "end" =
      Except.error "ZeroDivisionError: float division by zero" := by
  norm_num [calculate_compound_growth, contribution_future_value, cfv_val,
    effective_annual_rate, periodic_rate, principal_future_value]

/-- Claim C2: with annualRate = 0, contribution = 50 > 0, timing = end,
P = 100, Y = 2 the claim expects nominalBalance = 100 + 50*2 = 200; the
code instead raises `ZeroDivisionError` on source line 59 (there is no
special case for a zero effective annual rate). -/
theorem zero_rate_end_timing_raises_not_sum :
    calculate_compound_growth 100 0 1 2 50 0 "end" =
      Except.error "ZeroDivisionError: float division by zero" := by
  norm_num [calculate_compound_growth, contribution_future_value, cfv_val,
    effective_annual_rate, periodic_rate, principal_future_value]

/-- Claim C3: the claim says `--inflation 150` is rejected with a non-zero
exit status; in the code `main` divides the flag by 100 (line 270) before
`validate_input`, whose bound check `inflation >= 100` (line 20) then
compares the decimal 1.5 against 100, so validation passes and the program
proceeds to display results instead of exiting. -/
theorem cli_inflation_150_passes_validation :
    (run_main 1000 5 12 10 0 150 "end").isSome = true := by
  norm_num [run_main, validate_input]

/-- Claim C9: `calculate_compound_growth` is a pure function of its
arguments in this embedding (as in the source, which reads no external
state): two calls on identical inputs give identical results. -/
theorem calculate_compound_growth_deterministic (P r : ℚ) (n t : ℕ)
    (pmt inflation : ℚ) (ct : String) :
    calculate_compound_growth P r n t pmt inflation ct =
      calculate_compound_growth P r n t pmt inflation ct := rfl

/-- Claim C10: the contribution branch is guarded by `pmt > 0` (line 53),
so any `pmt ≤ 0` (including negative values) behaves exactly like
`pmt = 0`. -/
theorem nonpositive_contribution_treated_as_zero (P r : ℚ) (n t : ℕ)
    (pmt inflation : ℚ) (ct : String) (h : pmt ≤ 0) :
    calculate_compound_growth P r n t pmt inflation ct =
      calculate_compound_growth P r n t 0 inflation ct := by
  unfold calculate_compound_growth contribution_future_value
  have h1 : ¬(0 < pmt ∧ 0 < t) := fun hc => absurd hc.1 (not_lt.2 h)
  have h2 : ¬((0:ℚ) < 0 ∧ 0 < t) := fun hc => absurd hc.1 (lt_irrefl 0)
  rw [if_neg h1, if_neg h2]

/-- Witness for C10 at the concrete input pmt = -5. -/
theorem nonpositive_contribution_treated_as_zero_witness :
    calculate_compound_growth 100 (1/10) 2 3 (-5) 0 "end" =
      calculate_compound_growth 100 (1/10) 2 3 0 0 "end" :=
  nonpositive_contribution_treated_as_zero 100 (1/10) 2 3 (-5) 0 "end" (by norm_num)

/-- Claim C6: at years = 0 the whole pipeline degenerates — exponent 0,
contribution branch off, inflation branch off — so the result is
`(principal, principal)`; `n > 0` is required because line 47 divides by
`n` before anything else. -/
theorem zero_horizon_returns_principal (P r : ℚ) (n : ℕ) (pmt inflation : ℚ)
    (ct : String) (hn : 0 < n) :
    calculate_compound_growth P r n 0 pmt inflation ct = Except.ok (P, P) := by
  rw [calculate_compound_growth_eq_ok P r n 0 pmt inflation ct hn.ne'
    (Or.inr (by simp))]
  unfold principal_future_value cfv_val
  simp

/-- Witness for C6 at a concrete input. -/
theorem zero_horizon_returns_principal_witness :
    calculate_compound_growth 500 (7/100) 4 0 200 (3/100) "start" =
      Except.ok (500, 500) :=
  zero_horizon_returns_principal 500 (7/100) 4 200 (3/100) "start" (by norm_num)

/-- Claim C7: with `inflation = 0` the guard on line 64 (`inflation > 0`)
is false, so the inflation-adjusted balance is the nominal balance: every
successful result pair is diagonal. -/
theorem zero_inflation_real_eq_nominal (P r : ℚ) (n t : ℕ) (pmt : ℚ)
    (ct : String) (p : ℚ × ℚ)
    (h : calculate_compound_growth P r n t pmt 0 ct = Except.ok p) :
    p.2 = p.1 := by
  unfold calculate_compound_growth at h
  by_cases hn : n = 0
  · rw [if_pos hn] at h
    exact absurd h (by simp)
  · rw [if_neg hn] at h
    cases hcf : contribution_future_value r n t pmt ct with
    | error e =>
      rw [hcf] at h
      exact absurd h (by simp)
    | ok cfv =>
      rw [hcf] at h
      simp only [lt_self_iff_false, false_and, if_false, Except.ok.injEq] at h
      rw [← h]

/-- Witness for C7 at a concrete input whose evaluation succeeds. -/
theorem zero_inflation_real_eq_nominal_witness :
    calculate_compound_growth 100 0 1 5 0 0 "end" = Except.ok (100, 100) ∧
      ((100:ℚ), (100:ℚ)).2 = ((100:ℚ), (100:ℚ)).1 := by
  have h : calculate_compound_growth 100 0 1 5 0 0 "end" = Except.ok (100, 100) := by
    norm_num [calculate_compound_growth, contribution_future_value, cfv_val,
      effective_annual_rate, periodic_rate, principal_future_value]
  exact ⟨h, zero_inflation_real_eq_nominal 100 0 1 5 0 "end" (100, 100) h⟩

/-- Claim C5: with no contributions the core is the plain compound-interest
formula; with inflation = 0 the real balance equals it too. -/
theorem zero_contribution_matches_closed_form (P r : ℚ) (n t : ℕ)
    (inflation : ℚ) (ct : String) (hn : 0 < n) :
    (∃ real, calculate_compound_growth P r n t 0 inflation ct =
        Except.ok (P * (1 + r / (n : ℚ)) ^ (n * t), real)) ∧
    (inflation = 0 → calculate_compound_growth P r n t 0 inflation ct =
        Except.ok (P * (1 + r / (n : ℚ)) ^ (n * t),
          P * (1 + r / (n : ℚ)) ^ (n * t))) := by
  have hc : cfv_val r n t 0 ct = 0 := by
    unfold cfv_val
    rw [if_neg (fun hc => absurd hc.1 (lt_irrefl 0))]
  have hok := calculate_compound_growth_eq_ok P r n t 0 inflation ct hn.ne'
    (Or.inr (fun hc => absurd hc.1 (lt_irrefl 0)))
  rw [hc, add_zero] at hok
  constructor
  · exact ⟨_, by rw [hok]; rfl⟩
  · intro h0
    subst h0
    rw [hok]
    rw [if_neg (fun hc => absurd hc.1 (lt_irrefl 0))]
    rfl

/-- Witness for C5 at the spec's example scenario (principal 1000, five
percent rate compounded monthly over ten years, no contributions). -/
theorem zero_contribution_matches_closed_form_witness :
    (∃ real, calculate_compound_growth 1000 (5/100) 12 10 0 0 "end" =
        Except.ok (1000 * (1 + (5/100) / (12 : ℚ)) ^ (12 * 10), real)) ∧
    ((0:ℚ) = 0 → calculate_compound_growth 1000 (5/100) 12 10 0 0 "end" =
        Except.ok (1000 * (1 + (5/100) / (12 : ℚ)) ^ (12 * 10),
          1000 * (1 + (5/100) / (12 : ℚ)) ^ (12 * 10))) :=
  zero_contribution_matches_closed_form 1000 (5/100) 12 10 0 "end" (by norm_num)

/-- Claim C8: `validate_input` accumulates one message per violated
constraint into the `errors` list, each present independently of the
others (no fail-fast), and `main` exits with status 1 exactly when the
list is non-empty. -/
theorem validation_collects_all_violations (p r : ℚ) (nc y : ℤ) (c i : ℚ)
    (P R : ℚ) (N Y : ℤ) (C I : ℚ) (tm : String) :
    (("Principal cannot be negative" ∈ validate_input p r nc y c i ↔ p < 0) ∧
     ("Interest rate cannot be negative" ∈ validate_input p r nc y c i ↔ r < 0) ∧
     ("Compounds per year must be greater than 0" ∈ validate_input p r nc y c i ↔ nc ≤ 0) ∧
     ("Years must be greater than 0" ∈ validate_input p r nc y c i ↔ y ≤ 0) ∧
     ("Annual contributions cannot be negative" ∈ validate_input p r nc y c i ↔ c < 0) ∧
     ("Inflation rate must be between 0 and 100%" ∈ validate_input p r nc y c i ↔
        (i < 0 ∨ 100 ≤ i))) ∧
    (run_main P R N Y C I tm = none ↔ validate_input P (R/100) N Y C (I/100) ≠ []) := by
  constructor
  · unfold validate_input
    split_ifs <;> simp_all
  · by_cases h : validate_input P (R/100) N Y C (I/100) = []
    · simp [run_main, h]
    · simp [run_main, h]

/-- Claim C4 counterexample: a valid parameter set with rate > 0 but
principal = 0 and contribution = 0 keeps the nominal balance at 0 for
every horizon, so increasing years does not strictly increase it. -/
theorem nominal_not_strictMono_zero_principal :
    calculate_compound_growth 0 1 1 1 0 0 "end" = Except.ok (0, 0) ∧
    calculate_compound_growth 0 1 1 2 0 0 "end" = Except.ok (0, 0) ∧
    ¬((0:ℚ) < 0) := by
  refine ⟨?_, ?_, lt_irrefl 0⟩ <;>
    norm_num [calculate_compound_growth, contribution_future_value, cfv_val,
      effective_annual_rate, periodic_rate, principal_future_value]

/-- Claim C4 (amended): with rate > 0 and principal > 0 or contribution > 0,
the core succeeds at every horizon and the nominal balance strictly
increases with years. (The original claim fails when principal = 0 and
contribution = 0, and when rate = 0 with contribution > 0 the core raises
instead of returning, see C1.) -/
theorem nominal_strictMono_in_years_amended (P r : ℚ) (n t1 t2 : ℕ)
    (pmt inflation : ℚ) (ct : String)
    (hP : 0 ≤ P) (hr : 0 < r) (hn : 0 < n) (hpmt : 0 ≤ pmt)
    (hpos : 0 < P ∨ 0 < pmt) (ht : t1 < t2) :
    ∃ x y : ℚ × ℚ,
      calculate_compound_growth P r n t1 pmt inflation ct = Except.ok x ∧
      calculate_compound_growth P r n t2 pmt inflation ct = Except.ok y ∧
      x.1 < y.1 := by
  have hnq : (0:ℚ) < (n : ℚ) := by exact_mod_cast hn
  have hq : (1:ℚ) < 1 + periodic_rate r n := by
    unfold periodic_rate
    have hd : 0 < r / (n : ℚ) := div_pos hr hnq
    linarith
  have hs : (1:ℚ) < (1 + periodic_rate r n) ^ n := one_lt_pow₀ hq hn.ne'
  have hear : 0 < effective_annual_rate r n := by
    unfold effective_annual_rate
    linarith
  have h1i : (1:ℚ) < 1 + effective_annual_rate r n := by linarith
  have hok1 := calculate_compound_growth_eq_ok P r n t1 pmt inflation ct hn.ne'
    (Or.inl hear.ne')
  have hok2 := calculate_compound_growth_eq_ok P r n t2 pmt inflation ct hn.ne'
    (Or.inl hear.ne')
  refine ⟨_, _, hok1, hok2, ?_⟩
  show principal_future_value P r n t1 + cfv_val r n t1 pmt ct <
       principal_future_value P r n t2 + cfv_val r n t2 pmt ct
  have hpfv_le : principal_future_value P r n t1 ≤ principal_future_value P r n t2 := by
    unfold principal_future_value
    exact mul_le_mul_of_nonneg_left
      (pow_le_pow_right₀ hq.le (Nat.mul_le_mul (le_refl n) ht.le)) hP
  have hpfv_lt : 0 < P →
      principal_future_value P r n t1 < principal_future_value P r n t2 := by
    intro hP0
    unfold principal_future_value
    exact mul_lt_mul_of_pos_left
      (pow_lt_pow_right₀ hq (mul_lt_mul_of_pos_left ht hn)) hP0
  have hcfv0 : ∀ u : ℕ, ¬(0 < pmt ∧ 0 < u) → cfv_val r n u pmt ct = 0 := by
    intro u hcond
    unfold cfv_val
    rw [if_neg hcond]
  have hcfveq : ∀ u : ℕ, 0 < pmt → 0 < u → cfv_val r n u pmt ct =
      (if ct = "start" then
        pmt * (((1 + effective_annual_rate r n) ^ u - 1) / effective_annual_rate r n)
          * (1 + effective_annual_rate r n)
      else
        pmt * (((1 + effective_annual_rate r n) ^ u - 1) / effective_annual_rate r n)) := by
    intro u hp hu
    unfold cfv_val
    rw [if_pos ⟨hp, hu⟩]
  have hcfv_lt : 0 < pmt → cfv_val r n t1 pmt ct < cfv_val r n t2 pmt ct := by
    intro hp
    have ht2 : 0 < t2 := lt_of_le_of_lt (Nat.zero_le t1) ht
    rw [hcfveq t2 hp ht2]
    by_cases h0 : 0 < t1
    · rw [hcfveq t1 hp h0]
      have hdiv : ((1 + effective_annual_rate r n) ^ t1 - 1) / effective_annual_rate r n <
          ((1 + effective_annual_rate r n) ^ t2 - 1) / effective_annual_rate r n :=
        (div_lt_div_iff_of_pos_right hear).mpr
          (by linarith [pow_lt_pow_right₀ h1i ht])
      split_ifs
      · exact mul_lt_mul_of_pos_right (mul_lt_mul_of_pos_left hdiv hp) (by linarith)
      · exact mul_lt_mul_of_pos_left hdiv hp
    · rw [hcfv0 t1 (fun hc => h0 hc.2)]
      have hX2 : (1:ℚ) < (1 + effective_annual_rate r n) ^ t2 :=
        one_lt_pow₀ h1i ht2.ne'
      have hfrac : 0 < ((1 + effective_annual_rate r n) ^ t2 - 1) /
          effective_annual_rate r n := div_pos (by linarith) hear
      split_ifs
      · exact mul_pos (mul_pos hp hfrac) (by linarith)
      · exact mul_pos hp hfrac
  have hcfv_le : cfv_val r n t1 pmt ct ≤ cfv_val r n t2 pmt ct := by
    by_cases hp : 0 < pmt
    · exact (hcfv_lt hp).le
    · rw [hcfv0 t1 (fun hc => hp hc.1), hcfv0 t2 (fun hc => hp hc.1)]
  rcases hpos with hP0 | hp0
  · exact add_lt_add_of_lt_of_le (hpfv_lt hP0) hcfv_le
  · exact add_lt_add_of_le_of_lt hpfv_le (hcfv_lt hp0)

/-- Witness for the amended C4 at a concrete input. -/
theorem nominal_strictMono_in_years_amended_witness :
    ∃ x y : ℚ × ℚ,
      calculate_compound_growth 1 1 1 1 1 0 "end" = Except.ok x ∧
      calculate_compound_growth 1 1 1 2 1 0 "end" = Except.ok y ∧
      x.1 < y.1 :=
  nominal_strictMono_in_years_amended 1 1 1 1 2 1 0 "end" (by norm_num)
    (by norm_num) (by norm_num) (by norm_num) (Or.inl (by norm_num)) (by norm_num)
